import Mathlib

/-!
Shallow embedding of the authentication/session core of the
`express-prisma` repository (auth service, token issuer utilities,
authentication/authorization middleware, session cache) and proofs of the
specified properties about it.

Sources embedded:
* `src/modules/auth/auth.service.ts` — `AuthService.login`, `.register`,
  `.refreshToken`, `.logout`, `.generateTokens`;
* `src/middlewares/auth.middleware.ts` (the revision carrying the jti
  cache check, `src/unnamed/part_011`) — `authenticate`, `authorize`,
  `authorizeOwner`, `generateToken`, `generateRefreshToken`;
* the Redis-backed `CacheService` (get / set-with-TTL / del / exists);
* the user repository collaborator (find-by-email, find-by-id, create).

Modelling conventions:
* JWTs are modelled structurally: a signed token is its payload together
  with the signing secret, the embedded jti and the expiry instant.
  Structural equality of `SignedToken` corresponds to string equality of
  the real encoded tokens (two signed strings coincide exactly when all
  their claims and the signature coincide; jtis are fresh UUIDs).
* `randomUUID` freshness is supplied by a monotone counter `fresh` in the
  state; every generated id (jti, user id) consumes one counter value.
* Durations (`JWT_EXPIRES_IN`, `JWT_REFRESH_EXPIRES_IN`) are numbers of
  seconds; `now` is an instant in seconds.  Cache TTLs are recorded on the
  entries but the model does not advance time, claims about expiry are
  stated relative to an explicit `now`.
* Cache keys are the two key shapes the auth core uses, `token:<jti>` and
  `refreshToken:<userId>`, as an inductive type.  The two string shapes
  have distinct prefixes and injective arguments, so the inductive model
  is faithful to string keys.  `token:undefined` (a template literal over
  a missing jti) is `tokenKey none`.
* Unexpected lower-level (credential-store) failures are injected through
  an optional `fault` in the state: when set, every repository call
  throws that error, mirroring a database outage.  The real
  `CacheService` swallows all its own errors (returns `null` / `false`),
  so cache operations never throw, and are modelled total.
-/

namespace ExpressPrisma

/-! ## Tokens (jsonwebtoken + the issuer utilities of auth.middleware) -/

/-- The payload the issuer signs: `{id, email, role?}`. -/
structure TokenPayload where
  id : String
  email : String
  role : Option String
deriving DecidableEq, Repr

/-- A signed JWT, modelled structurally (claims + signature secret). -/
structure SignedToken where
  payload : TokenPayload
  jti : Option Nat
  secret : String
  exp : Nat
deriving DecidableEq, Repr

/-- The two verification failures `jsonwebtoken` distinguishes. -/
inductive JwtError
  | expired
  | invalid
deriving DecidableEq, Repr

/-- What `jwt.verify` hands back on success: the claims of the token. -/
structure DecodedPayload where
  id : String
  email : String
  role : Option String
  jti : Option Nat
deriving DecidableEq, Repr

/-- `jwt.verify(token, secret)` at instant `now`: signature is checked
first (wrong secret → `JsonWebTokenError`), then expiry
(`now ≥ exp` → `TokenExpiredError`); on success the claims are returned. -/
def verifyJwt (t : SignedToken) (secret : String) (now : Nat) :
    Except JwtError DecodedPayload :=
  if t.secret ≠ secret then .error .invalid
  else if t.exp ≤ now then .error .expired
  else .ok ⟨t.payload.id, t.payload.email, t.payload.role, t.jti⟩

/-- The JWT slice of the environment configuration (`config.jwt`). -/
structure Config where
  secret : String
  refreshSecret : String
  expiresIn : Nat
  refreshExpiresIn : Nat
deriving DecidableEq, Repr

/-- `generateToken(payload)`: sign with the access secret, expiry
`expiresIn` from now, `jwtid` a fresh UUID (the `jti` argument). -/
def generateToken (cfg : Config) (now : Nat) (jti : Nat) (p : TokenPayload) :
    SignedToken :=
  { payload := p, jti := some jti, secret := cfg.secret, exp := now + cfg.expiresIn }

/-- `generateRefreshToken(payload)`: sign with the distinct refresh secret
and the longer `refreshExpiresIn`, also with a fresh `jwtid`. -/
def generateRefreshToken (cfg : Config) (now : Nat) (jti : Nat) (p : TokenPayload) :
    SignedToken :=
  { payload := p, jti := some jti, secret := cfg.refreshSecret,
    exp := now + cfg.refreshExpiresIn }

/-! ## Session cache (`CacheService` over Redis) -/

/-- The cache keys the auth core writes: `token:<jti>` (with
`tokenKey none` standing for the literal `token:undefined`) and
`refreshToken:<userId>`. -/
inductive CacheKey
  | tokenKey (jti : Option Nat)
  | refreshKey (userId : String)
deriving DecidableEq, Repr

/-- The values stored under those keys: `{userId}` objects under
`token:<jti>`, the refresh-token string under `refreshToken:<userId>`. -/
inductive CacheVal
  | userIdVal (userId : String)
  | tokenVal (t : SignedToken)
deriving DecidableEq, Repr

/-- A stored cache entry: the serialized value plus the TTL it was set
with (`none` when `set` was called without a TTL). -/
structure CacheEntry where
  val : CacheVal
  ttl : Option Nat
deriving DecidableEq, Repr

/-- The session cache: an association list, newest binding first. -/
abbrev Cache := List (CacheKey × CacheEntry)

/-- Remove a key (`client.del`). -/
def cacheDel (c : Cache) (k : CacheKey) : Cache :=
  c.filter fun e => decide (e.1 ≠ k)

/-- `set` with overwrite semantics (`SET`/`SETEX` replace the binding). -/
def cacheSet (c : Cache) (k : CacheKey) (v : CacheVal) (ttl : Option Nat) : Cache :=
  (k, ⟨v, ttl⟩) :: cacheDel c k

/-- Look a key up (`client.get`, JSON-parsed). -/
def cacheGet (c : Cache) (k : CacheKey) : Option CacheEntry :=
  (c.find? fun e => decide (e.1 = k)).map (·.2)

/-- `client.exists(key) === 1`. -/
def cacheExists (c : Cache) (k : CacheKey) : Bool :=
  (cacheGet c k).isSome

/-! ## Credential store (user repository collaborator) -/

/-- Durable user record: `{id, email, name, password (bcrypt hash), role}`
(timestamps omitted; they carry no auth-path behaviour). -/
structure User where
  id : String
  email : String
  name : String
  password : String
  role : String
deriving DecidableEq, Repr

/-- Model of `bcrypt.hash(password, cost)`: an opaque digest that
determines the password (stands in for the collision-free one-way hash). -/
def bcryptHash (cost : Nat) (password : String) : String :=
  "bcrypt$" ++ toString cost ++ "$" ++ password

/-- Model of `bcrypt.compare(password, hash)`: succeeds exactly on the
hash of the same password (the service always hashes with cost 10). -/
def bcryptCompare (password hash : String) : Bool :=
  hash = bcryptHash 10 password

/-- `prisma.user.findUnique({where: {email}})`. -/
def findByEmail (db : List User) (email : String) : Option User :=
  db.find? fun u => decide (u.email = email)

/-- `prisma.user.findUnique({where: {id}})`. -/
def findById (db : List User) (id : String) : Option User :=
  db.find? fun u => decide (u.id = id)

/-! ## Errors (`shared/errors/app.error`) -/

/-- The error taxonomy the auth service throws: `UnauthorizedError`,
`ConflictError`, raw `jsonwebtoken` errors escaping a rethrow, and
unexpected lower-level store errors.  Errors are identified by kind plus
message, which is what the centralized error handler dispatches on. -/
inductive AppError
  | unauthorized (msg : String)
  | conflict (msg : String)
  | jwtErr (e : JwtError)
  | storeError (msg : String)
deriving DecidableEq, Repr

/-! ## Auth service state -/

/-- The state the auth service operates on: the credential store, the
session cache, the fresh-UUID source, and an optional injected
credential-store fault (when set, every repository call throws it). -/
structure AuthState where
  db : List User
  cache : Cache
  fresh : Nat
  fault : Option String
deriving DecidableEq, Repr

/-- Repository call `findByEmail` through the fault layer. -/
def repoFindByEmail (s : AuthState) (email : String) :
    Except AppError (Option User) :=
  match s.fault with
  | some m => .error (.storeError m)
  | none => .ok (findByEmail s.db email)

/-- Repository call `findById` through the fault layer. -/
def repoFindById (s : AuthState) (id : String) :
    Except AppError (Option User) :=
  match s.fault with
  | some m => .error (.storeError m)
  | none => .ok (findById s.db id)

/-- What the service passes to `userRepository.create`. -/
structure CreateUserDto where
  email : String
  name : String
  password : String
  role : String
deriving DecidableEq, Repr

/-- Repository call `create` through the fault layer: inserts a row with
a store-generated fresh id and returns it. -/
def repoCreate (s : AuthState) (data : CreateUserDto) :
    Except AppError (User × AuthState) :=
  match s.fault with
  | some m => .error (.storeError m)
  | none =>
    let u : User :=
      { id := toString s.fresh, email := data.email, name := data.name,
        password := data.password, role := data.role }
    .ok (u, { s with db := s.db ++ [u], fresh := s.fresh + 1 })

/-! ## Auth service operations -/

/-- `TokenResponse {token, refreshToken, expiresIn: config.jwt.expiresIn}`. -/
structure TokenResponse where
  token : SignedToken
  refreshToken : SignedToken
  expiresIn : Nat
deriving DecidableEq, Repr

/-- The public user projection returned by login/register. -/
structure UserResponseDto where
  id : String
  email : String
  name : String
  role : String
deriving DecidableEq, Repr

/-- `{user, tokens}` as returned by login and register. -/
structure AuthResult where
  user : UserResponseDto
  tokens : TokenResponse
deriving DecidableEq, Repr

def toResponseDto (u : User) : UserResponseDto :=
  { id := u.id, email := u.email, name := u.name, role := u.role }

/-- `AuthService.generateTokens(user)` (private): issue an access token
and a refresh token, each with a fresh jti, store the refresh token under
`refreshToken:<userId>` with TTL `refreshExpiresIn`, and return the pair.
(`user.role ?? 'User'` in the source is the identity here because `role`
is a non-nullable column on the user model.) -/
def generateTokens (cfg : Config) (now : Nat) (user : User) (s : AuthState) :
    TokenResponse × AuthState :=
  let p : TokenPayload := { id := user.id, email := user.email, role := some user.role }
  let token := generateToken cfg now s.fresh p
  let refreshTok := generateRefreshToken cfg now (s.fresh + 1) p
  let cache := cacheSet s.cache (.refreshKey user.id) (.tokenVal refreshTok)
    (some cfg.refreshExpiresIn)
  ({ token := token, refreshToken := refreshTok, expiresIn := cfg.expiresIn },
   { s with fresh := s.fresh + 2, cache := cache })

/-- Login input after schema validation: `{email, password}`. -/
structure LoginInput where
  email : String
  password : String
deriving DecidableEq, Repr

/-- `AuthService.login`: look the user up by email (absent →
`Unauthorized('Invalid credentials')`), compare the password against the
stored hash (mismatch → the same error), issue tokens, verify the fresh
access token to read its jti, and register `token:<jti> ↦ {userId}` with
TTL `expiresIn`.  The surrounding catch logs and rethrows unchanged. -/
def login (cfg : Config) (now : Nat) (data : LoginInput) (s : AuthState) :
    AuthState × Except AppError AuthResult :=
  match repoFindByEmail s data.email with
  | .error e => (s, .error e)
  | .ok none => (s, .error (.unauthorized "Invalid credentials"))
  | .ok (some user) =>
    if bcryptCompare data.password user.password then
      let (tokens, s1) := generateTokens cfg now user s
      match verifyJwt tokens.token cfg.secret now with
      | .error e => (s1, .error (.jwtErr e))
      | .ok d =>
        let s2 := { s1 with
          cache := cacheSet s1.cache (.tokenKey d.jti) (.userIdVal user.id)
            (some cfg.expiresIn) }
        (s2, .ok { user := toResponseDto user, tokens := tokens })
    else (s, .error (.unauthorized "Invalid credentials"))

/-- Register input after schema validation: `{email, password, name}`.
The schema carries no `role` field, so the service's `data.role` read is
modelled as an `Option` that validated inputs always leave `none`. -/
structure RegisterInput where
  email : String
  password : String
  name : String
  role : Option String
deriving DecidableEq, Repr

/-- `AuthService.register`: email already present →
`Conflict('User with this email already exists')`; otherwise hash the
password (cost 10), create the user with `role: data.role ?? 'User'`,
and issue tokens via `generateTokens`.  Note: unlike `login`, no
`token:<jti>` entry is written.  The catch logs and rethrows unchanged. -/
def register (cfg : Config) (now : Nat) (data : RegisterInput) (s : AuthState) :
    AuthState × Except AppError AuthResult :=
  match repoFindByEmail s data.email with
  | .error e => (s, .error e)
  | .ok (some _) => (s, .error (.conflict "User with this email already exists"))
  | .ok none =>
    let hashed := bcryptHash 10 data.password
    match repoCreate s
        { email := data.email, name := data.name, password := hashed,
          role := data.role.getD "User" } with
    | .error e => (s, .error e)
    | .ok (user, s1) =>
      let (tokens, s2) := generateTokens cfg now user s1
      (s2, .ok { user := toResponseDto user, tokens := tokens })

/-- `AuthService.refreshToken`: verify the refresh token with the refresh
secret, resolve the embedded user id, compare the provided token with the
cached `refreshToken:<userId>` value, and on match rotate (issue a fresh
pair, overwriting the cache entry).  The catch block replaces *every*
failure — verification, lookup, mismatch, and lower-level store errors —
by `UnauthorizedError('Invalid refresh token')`. -/
def refreshTokenOp (cfg : Config) (now : Nat) (rt : SignedToken) (s : AuthState) :
    AuthState × Except AppError TokenResponse :=
  match verifyJwt rt cfg.refreshSecret now with
  | .error _ => (s, .error (.unauthorized "Invalid refresh token"))
  | .ok d =>
    match repoFindById s d.id with
    | .error _ => (s, .error (.unauthorized "Invalid refresh token"))
    | .ok none => (s, .error (.unauthorized "Invalid refresh token"))
    | .ok (some user) =>
      let stored? : Option CacheVal :=
        (cacheGet s.cache (.refreshKey user.id)).map (fun e => e.val)
      match stored? with
      | some (.tokenVal stored) =>
        if stored = rt then
          let (tokens, s1) := generateTokens cfg now user s
          (s1, .ok tokens)
        else (s, .error (.unauthorized "Invalid refresh token"))
      | _ => (s, .error (.unauthorized "Invalid refresh token"))

/-- `AuthService.logout`: verify the access token with the access secret,
resolve the user, then delete both `token:<jti>` and
`refreshToken:<userId>`.  The catch logs and rethrows unchanged (so a
verification failure surfaces as the raw jwt error). -/
def logout (cfg : Config) (now : Nat) (token : SignedToken) (s : AuthState) :
    AuthState × Except AppError Unit :=
  match verifyJwt token cfg.secret now with
  | .error e => (s, .error (.jwtErr e))
  | .ok d =>
    match repoFindById s d.id with
    | .error e => (s, .error e)
    | .ok none => (s, .error (.unauthorized "Invalid credentials"))
    | .ok (some user) =>
      let c1 := cacheDel s.cache (.tokenKey d.jti)
      let c2 := cacheDel c1 (.refreshKey user.id)
      ({ s with cache := c2 }, .ok ())

/-! ## Authentication / authorization middleware (part_011 revision) -/

/-- The identity attached to `res.locals.user`. -/
structure CtxUser where
  id : String
  email : String
  role : Option String
deriving DecidableEq, Repr

/-- The `Authorization` header of an incoming request. -/
inductive AuthHeader
  | missing
  | nonBearer (raw : String)
  | bearer (t : SignedToken)
deriving DecidableEq, Repr

/-- Outcome of the `authenticate` middleware. -/
inductive AuthOutcome
  | reject (status : Nat) (message : String)
  | success (user : CtxUser)
deriving DecidableEq, Repr

/-- `authenticate`: missing/malformed header → 401 `No token provided`;
signature/expiry failure → 401 `Token expired` / `Invalid token`; a token
carrying a jti must still be present in the session cache under
`token:<jti>`, else 401 `Token invalidated or expired`; on success the
decoded identity is attached. -/
def authenticate (cfg : Config) (now : Nat) (cache : Cache) (h : AuthHeader) :
    AuthOutcome :=
  match h with
  | .missing => .reject 401 "No token provided"
  | .nonBearer _ => .reject 401 "No token provided"
  | .bearer t =>
    match verifyJwt t cfg.secret now with
    | .error .expired => .reject 401 "Token expired"
    | .error .invalid => .reject 401 "Invalid token"
    | .ok d =>
      match d.jti with
      | some j =>
        if cacheExists cache (.tokenKey (some j)) then
          .success { id := d.id, email := d.email, role := d.role }
        else .reject 401 "Token invalidated or expired"
      | none => .success { id := d.id, email := d.email, role := d.role }

/-- Outcome of an authorization gate middleware. -/
inductive GateOutcome
  | reject (status : Nat) (message : String)
  | next
deriving DecidableEq, Repr

/-- `authorize(...allowedRoles)`: role-membership gate, defaulting a
missing role to `'user'`. -/
def authorize (allowedRoles : List String) (user? : Option CtxUser) : GateOutcome :=
  match user? with
  | none => .reject 401 "Authentication required"
  | some u =>
    if (u.role.getD "user") ∈ allowedRoles then .next
    else .reject 403 "Insufficient permissions"

/-- `authorizeOwner(getUserIdFromRequest)`: admin bypass when the
requester's role is the exact string `'admin'`; otherwise the resource's
user id must equal the requester's id, else 403. -/
def authorizeOwner (resourceUserId : String) (user? : Option CtxUser) : GateOutcome :=
  match user? with
  | none => .reject 401 "Authentication required"
  | some u =>
    if u.role = some "admin" then .next
    else if resourceUserId ≠ u.id then
      .reject 403 "You can only access your own resources"
    else .next

/-! ## Cache lemmas -/

theorem cacheGet_cons (e : CacheKey × CacheEntry) (c : Cache) (k : CacheKey) :
    cacheGet (e :: c) k = if e.1 = k then some e.2 else cacheGet c k := by
  by_cases h : e.1 = k <;> simp [cacheGet, List.find?, h]

theorem cacheDel_cons (e : CacheKey × CacheEntry) (c : Cache) (k : CacheKey) :
    cacheDel (e :: c) k = if e.1 = k then cacheDel c k else e :: cacheDel c k := by
  by_cases h : e.1 = k <;> simp [cacheDel, List.filter, h]

theorem cacheGet_del_self (c : Cache) (k : CacheKey) :
    cacheGet (cacheDel c k) k = none := by
  induction c with
  | nil => rfl
  | cons e c ih =>
    rw [cacheDel_cons]
    by_cases h : e.1 = k
    · simpa [h] using ih
    · rw [if_neg h, cacheGet_cons, if_neg h]
      exact ih

theorem cacheGet_del_ne (c : Cache) (k k' : CacheKey) (h : k' ≠ k) :
    cacheGet (cacheDel c k) k' = cacheGet c k' := by
  induction c with
  | nil => rfl
  | cons e c ih =>
    rw [cacheDel_cons, cacheGet_cons]
    by_cases he : e.1 = k
    · have hek : e.1 ≠ k' := fun hk => h (hk ▸ he ▸ rfl)
      rw [if_pos he, if_neg hek]
      exact ih
    · rw [if_neg he, cacheGet_cons]
      by_cases he' : e.1 = k'
      · rw [if_pos he', if_pos he']
      · rw [if_neg he', if_neg he']
        exact ih

theorem cacheGet_set_same (c : Cache) (k : CacheKey) (v : CacheVal) (t : Option Nat) :
    cacheGet (cacheSet c k v t) k = some ⟨v, t⟩ := by
  rw [cacheSet, cacheGet_cons, if_pos rfl]

theorem cacheGet_set_ne (c : Cache) (k k' : CacheKey) (v : CacheVal) (t : Option Nat)
    (h : k' ≠ k) : cacheGet (cacheSet c k v t) k' = cacheGet c k' := by
  rw [cacheSet, cacheGet_cons, if_neg (fun hk => h (hk.symm)), cacheGet_del_ne c k k' h]

theorem cacheExists_del_self (c : Cache) (k : CacheKey) :
    cacheExists (cacheDel c k) k = false := by
  rw [cacheExists, cacheGet_del_self]; rfl

theorem cacheExists_del_ne (c : Cache) (k k' : CacheKey) (h : k' ≠ k) :
    cacheExists (cacheDel c k) k' = cacheExists c k' := by
  rw [cacheExists, cacheGet_del_ne c k k' h, cacheExists]

theorem cacheExists_set_ne (c : Cache) (k k' : CacheKey) (v : CacheVal) (t : Option Nat)
    (h : k' ≠ k) : cacheExists (cacheSet c k v t) k' = cacheExists c k' := by
  rw [cacheExists, cacheGet_set_ne c k k' v t h, cacheExists]

/-- Boolean well-formedness bound: every `token:<jti>` key in the cache
has its jti strictly below `n` (the next fresh id).  Holds for any state
whose cached jtis were all drawn from the fresh source. -/
def cacheJtisBelow (c : Cache) (n : Nat) : Bool :=
  c.all fun e =>
    match e.1 with
    | .tokenKey (some j) => decide (j < n)
    | _ => true

theorem cacheExists_of_jtisBelow (c : Cache) (n j : Nat)
    (hb : cacheJtisBelow c n = true) (hj : n ≤ j) :
    cacheExists c (.tokenKey (some j)) = false := by
  induction c with
  | nil => rfl
  | cons e c ih =>
    rw [cacheJtisBelow, List.all_cons, Bool.and_eq_true] at hb
    rw [show (e :: c : Cache) = e :: c from rfl, cacheExists, cacheGet_cons]
    by_cases he : e.1 = CacheKey.tokenKey (some j)
    · exfalso
      have := hb.1
      rw [he] at this
      simp only [decide_eq_true_eq] at this
      omega
    · rw [if_neg he]
      exact ih hb.2

theorem cacheJtisBelow_set_refresh (c : Cache) (n : Nat) (u : String)
    (v : CacheVal) (t : Option Nat) (hb : cacheJtisBelow c n = true) :
    cacheJtisBelow (cacheSet c (.refreshKey u) v t) n = true := by
  rw [cacheSet, cacheJtisBelow, List.all_cons]
  rw [Bool.and_eq_true]
  refine ⟨rfl, ?_⟩
  rw [cacheDel, List.all_eq_true]
  intro e he
  exact List.all_eq_true.mp hb e (List.mem_filter.mp he).1

theorem cacheJtisBelow_mono (c : Cache) (n m : Nat) (h : n ≤ m)
    (hb : cacheJtisBelow c n = true) : cacheJtisBelow c m = true := by
  rw [cacheJtisBelow] at hb ⊢
  rw [List.all_eq_true] at hb ⊢
  intro e he
  have := hb e he
  revert this
  match e.1 with
  | .tokenKey (some j) =>
    simp only [decide_eq_true_eq]
    omega
  | .tokenKey none => intro h; exact h
  | .refreshKey _ => intro h; exact h

/-! ## Reduction lemmas for the service operations (proof support) -/

/-- The payload the service signs for a user. -/
def userPayload (u : User) : TokenPayload :=
  { id := u.id, email := u.email, role := some u.role }

/-- The token pair `generateTokens` issues when the fresh counter is `n`. -/
def issuedTokens (cfg : Config) (now : Nat) (n : Nat) (u : User) : TokenResponse :=
  { token := generateToken cfg now n (userPayload u),
    refreshToken := generateRefreshToken cfg now (n + 1) (userPayload u),
    expiresIn := cfg.expiresIn }

theorem generateTokens_eq (cfg : Config) (now : Nat) (u : User) (s : AuthState) :
    generateTokens cfg now u s =
      (issuedTokens cfg now s.fresh u,
       { s with
           fresh := s.fresh + 2,
           cache := cacheSet s.cache (.refreshKey u.id)
             (.tokenVal (issuedTokens cfg now s.fresh u).refreshToken)
             (some cfg.refreshExpiresIn) }) := by
  rfl

theorem verifyJwt_generateToken (cfg : Config) (now j : Nat) (p : TokenPayload)
    (now' : Nat) (h : now' < now + cfg.expiresIn) :
    verifyJwt (generateToken cfg now j p) cfg.secret now' =
      .ok ⟨p.id, p.email, p.role, some j⟩ := by
  rw [verifyJwt, generateToken]
  rw [if_neg (by simp), if_neg (by show ¬(now + cfg.expiresIn ≤ now'); omega)]

theorem verifyJwt_generateRefreshToken (cfg : Config) (now j : Nat) (p : TokenPayload)
    (now' : Nat) (h : now' < now + cfg.refreshExpiresIn) :
    verifyJwt (generateRefreshToken cfg now j p) cfg.refreshSecret now' =
      .ok ⟨p.id, p.email, p.role, some j⟩ := by
  rw [verifyJwt, generateRefreshToken]
  rw [if_neg (by simp), if_neg (by show ¬(now + cfg.refreshExpiresIn ≤ now'); omega)]

/-- Explicit value of a successful `login`. -/
theorem login_ok_eq (cfg : Config) (now : Nat) (data : LoginInput) (s : AuthState)
    (u : User) (hfault : s.fault = none)
    (hfind : findByEmail s.db data.email = some u)
    (hpw : bcryptCompare data.password u.password = true)
    (hexp : 0 < cfg.expiresIn) :
    login cfg now data s =
      ({ s with
           fresh := s.fresh + 2,
           cache := cacheSet
             (cacheSet s.cache (.refreshKey u.id)
               (.tokenVal (issuedTokens cfg now s.fresh u).refreshToken)
               (some cfg.refreshExpiresIn))
             (.tokenKey (some s.fresh)) (.userIdVal u.id) (some cfg.expiresIn) },
       .ok { user := toResponseDto u, tokens := issuedTokens cfg now s.fresh u }) := by
  have h1 : repoFindByEmail s data.email = Except.ok (some u) := by
    rw [repoFindByEmail, hfault, hfind]
  have h2 : verifyJwt (generateToken cfg now s.fresh (userPayload u)) cfg.secret now =
      .ok ⟨u.id, u.email, some u.role, some s.fresh⟩ :=
    verifyJwt_generateToken cfg now s.fresh (userPayload u) now (by omega)
  simp only [login, h1, hpw, if_true, generateTokens_eq, issuedTokens, h2]

theorem repoFindById_eq (s : AuthState) (id : String) (h : s.fault = none) :
    repoFindById s id = .ok (findById s.db id) := by
  rw [repoFindById, h]

/-- A `find?` hit satisfies its predicate: the user `findById` returns
carries the queried id. -/
theorem findById_some_id (db : List User) (id : String) (u : User)
    (h : findById db id = some u) : u.id = id := by
  have := List.find?_some h
  simpa using this

/-- Explicit value of a successful `refreshToken` (rotation). -/
theorem refreshTokenOp_ok_eq (cfg : Config) (now : Nat) (rt : SignedToken)
    (s : AuthState) (d : DecodedPayload) (u : User) (t : Option Nat)
    (hfault : s.fault = none)
    (hver : verifyJwt rt cfg.refreshSecret now = .ok d)
    (hfid : findById s.db d.id = some u)
    (hstored : cacheGet s.cache (.refreshKey u.id) = some ⟨.tokenVal rt, t⟩) :
    refreshTokenOp cfg now rt s =
      ({ s with
           fresh := s.fresh + 2,
           cache := cacheSet s.cache (.refreshKey u.id)
             (.tokenVal (issuedTokens cfg now s.fresh u).refreshToken)
             (some cfg.refreshExpiresIn) },
       .ok (issuedTokens cfg now s.fresh u)) := by
  have h1 : repoFindById s d.id = .ok (some u) := by rw [repoFindById, hfault, hfid]
  simp only [refreshTokenOp, hver, h1, hstored, Option.map_some', eq_self_iff_true,
    if_true, generateTokens_eq]

/-- A `refreshToken` call presenting a token different from the cached
one fails `Unauthorized('Invalid refresh token')` and leaves the state
unchanged. -/
theorem refreshTokenOp_stale (cfg : Config) (now : Nat) (rt : SignedToken)
    (s : AuthState) (d : DecodedPayload) (u : User) (t' : SignedToken) (tt : Option Nat)
    (hfault : s.fault = none)
    (hver : verifyJwt rt cfg.refreshSecret now = .ok d)
    (hfid : findById s.db d.id = some u)
    (hstored : cacheGet s.cache (.refreshKey u.id) = some ⟨.tokenVal t', tt⟩)
    (hne : t' ≠ rt) :
    refreshTokenOp cfg now rt s =
      (s, .error (.unauthorized "Invalid refresh token")) := by
  have h1 : repoFindById s d.id = .ok (some u) := by rw [repoFindById, hfault, hfid]
  simp only [refreshTokenOp, hver, h1, hstored, Option.map_some', if_neg hne]

/-- The user row `register` creates. -/
def regUser (data : RegisterInput) (s : AuthState) : User :=
  { id := toString s.fresh, email := data.email, name := data.name,
    password := bcryptHash 10 data.password, role := data.role.getD "User" }

/-- Explicit value of a successful `register`. -/
theorem register_ok_eq (cfg : Config) (now : Nat) (data : RegisterInput)
    (s : AuthState) (hfault : s.fault = none)
    (hfree : findByEmail s.db data.email = none) :
    register cfg now data s =
      ({ s with
           db := s.db ++ [regUser data s],
           fresh := s.fresh + 1 + 2,
           cache := cacheSet s.cache (.refreshKey (regUser data s).id)
             (.tokenVal (issuedTokens cfg now (s.fresh + 1) (regUser data s)).refreshToken)
             (some cfg.refreshExpiresIn) },
       .ok { user := toResponseDto (regUser data s),
             tokens := issuedTokens cfg now (s.fresh + 1) (regUser data s) }) := by
  have h1 : repoFindByEmail s data.email = .ok none := by
    rw [repoFindByEmail, hfault, hfree]
  have h2 : repoCreate s
      { email := data.email, name := data.name,
        password := bcryptHash 10 data.password, role := data.role.getD "User" } =
      .ok (regUser data s, { s with db := s.db ++ [regUser data s], fresh := s.fresh + 1 }) := by
    rw [repoCreate, hfault]; rfl
  simp only [register, h1, h2, generateTokens_eq]

/-- Explicit value of a successful `logout`. -/
theorem logout_ok_eq (cfg : Config) (now : Nat) (tok : SignedToken)
    (s : AuthState) (d : DecodedPayload) (u : User)
    (hfault : s.fault = none)
    (hver : verifyJwt tok cfg.secret now = .ok d)
    (hfid : findById s.db d.id = some u) :
    logout cfg now tok s =
      ({ s with
           cache := cacheDel (cacheDel s.cache (.tokenKey d.jti)) (.refreshKey u.id) },
       .ok ()) := by
  have h1 : repoFindById s d.id = .ok (some u) := by rw [repoFindById, hfault, hfid]
  simp only [logout, hver, h1]

/-! ## Concrete fixtures for witnesses -/

def cfgW : Config :=
  { secret := "access-secret", refreshSecret := "refresh-secret",
    expiresIn := 3600, refreshExpiresIn := 604800 }

def aliceW : User :=
  { id := "u1", email := "alice@example.com", name := "Alice",
    password := bcryptHash 10 "Sw0rdFish!", role := "User" }

def stateW : AuthState := { db := [aliceW], cache := [], fresh := 0, fault := none }

def emptyStateW : AuthState := { db := [], cache := [], fresh := 0, fault := none }

def faultStateW : AuthState :=
  { db := [aliceW], cache := [], fresh := 0, fault := some "db down" }

def loginW : LoginInput := { email := "alice@example.com", password := "Sw0rdFish!" }

def registerW : RegisterInput :=
  { email := "alice@example.com", password := "Sw0rdFish!", name := "Alice", role := none }

/-! ## Claims -/

/-- C3: for every login input, if the email is not in the credential
store, or it is but the password does not match the stored hash, `login`
fails with `Unauthorized` and the surfaced error is identical in both
cases — the same kind (`UnauthorizedError`) and the same message
(`Invalid credentials`) — so the caller cannot tell which case occurred.
The hypothesis covers exactly the two cases at once: the email lookup is
either empty or yields a user whose stored hash the password fails. -/
theorem C3_login_indistinguishable_failure (cfg : Config) (now : Nat)
    (data : LoginInput) (s : AuthState) (hfault : s.fault = none)
    (hbad : (findByEmail s.db data.email).all
      (fun u => !bcryptCompare data.password u.password) = true) :
    login cfg now data s = (s, .error (.unauthorized "Invalid credentials")) := by
  have h1 : repoFindByEmail s data.email = .ok (findByEmail s.db data.email) := by
    rw [repoFindByEmail, hfault]
  cases hfe : findByEmail s.db data.email with
  | none => simp only [login, h1, hfe]
  | some u =>
    rw [hfe] at hbad
    have hc : bcryptCompare data.password u.password = false := by
      simpa using hbad
    simp only [login, h1, hfe, hc, Bool.false_eq_true, if_false]

theorem C3_witness :
    login cfgW 0 { email := "alice@example.com", password := "wrong" } stateW =
      (stateW, .error (.unauthorized "Invalid credentials")) :=
  C3_login_indistinguishable_failure cfgW 0
    { email := "alice@example.com", password := "wrong" } stateW rfl (by decide)

/-- C7: `register` with an email that already belongs to an existing user
fails with `Conflict('User with this email already exists')` and leaves
the credential store unchanged — no second row is created. -/
theorem C7_register_conflict (cfg : Config) (now : Nat) (data : RegisterInput)
    (s : AuthState) (u : User) (hfault : s.fault = none)
    (hfind : findByEmail s.db data.email = some u) :
    register cfg now data s =
      (s, .error (.conflict "User with this email already exists")) ∧
    (register cfg now data s).1.db = s.db := by
  have h1 : repoFindByEmail s data.email = .ok (some u) := by
    rw [repoFindByEmail, hfault, hfind]
  refine ⟨?_, ?_⟩ <;> simp only [register, h1]

theorem C7_witness :
    (register cfgW 0 registerW stateW =
      (stateW, .error (.conflict "User with this email already exists"))) ∧
    (register cfgW 0 registerW stateW).1.db = stateW.db :=
  C7_register_conflict cfgW 0 registerW stateW aliceW rfl (by decide)

/-- C4: after a successful login the session cache contains
`token:<jti>` (the jti of the issued access token) mapping to the user's
id with TTL the configured access-token lifetime, and
`refreshToken:<userId>` holding the issued refresh token with TTL the
configured refresh-token lifetime. -/
theorem C4_login_cache_entries (cfg : Config) (now : Nat) (data : LoginInput)
    (s : AuthState) (u : User) (hfault : s.fault = none)
    (hfind : findByEmail s.db data.email = some u)
    (hpw : bcryptCompare data.password u.password = true)
    (hexp : 0 < cfg.expiresIn) :
    ∃ s1 r, login cfg now data s = (s1, .ok r) ∧
      r.tokens.token.jti = some s.fresh ∧
      cacheGet s1.cache (.tokenKey (some s.fresh)) =
        some ⟨.userIdVal u.id, some cfg.expiresIn⟩ ∧
      cacheGet s1.cache (.refreshKey u.id) =
        some ⟨.tokenVal r.tokens.refreshToken, some cfg.refreshExpiresIn⟩ := by
  refine ⟨_, _, login_ok_eq cfg now data s u hfault hfind hpw hexp, rfl, ?_, ?_⟩
  · exact cacheGet_set_same _ _ _ _
  · rw [cacheGet_set_ne _ _ _ _ _ (by simp)]
    exact cacheGet_set_same _ _ _ _

theorem C4_witness :
    ∃ s1 r, login cfgW 0 loginW stateW = (s1, .ok r) ∧
      r.tokens.token.jti = some stateW.fresh ∧
      cacheGet s1.cache (.tokenKey (some stateW.fresh)) =
        some ⟨.userIdVal aliceW.id, some cfgW.expiresIn⟩ ∧
      cacheGet s1.cache (.refreshKey aliceW.id) =
        some ⟨.tokenVal r.tokens.refreshToken, some cfgW.refreshExpiresIn⟩ :=
  C4_login_cache_entries cfgW 0 loginW stateW aliceW rfl (by decide) (by decide)
    (by decide)

/-- C8: a token issued by `generateToken` (resp. `generateRefreshToken`),
verified with the matching secret before its expiry, decodes to exactly
the claims it was created with: the same id, email and role, plus the
fresh jti embedded at issuance. -/
theorem C8_token_round_trip (cfg : Config) (p : TokenPayload)
    (now j now' : Nat) (h1 : now' < now + cfg.expiresIn)
    (now2 j2 now2' : Nat) (h2 : now2' < now2 + cfg.refreshExpiresIn) :
    verifyJwt (generateToken cfg now j p) cfg.secret now' =
      .ok ⟨p.id, p.email, p.role, some j⟩ ∧
    verifyJwt (generateRefreshToken cfg now2 j2 p) cfg.refreshSecret now2' =
      .ok ⟨p.id, p.email, p.role, some j2⟩ :=
  ⟨verifyJwt_generateToken cfg now j p now' h1,
   verifyJwt_generateRefreshToken cfg now2 j2 p now2' h2⟩

theorem C8_witness :
    verifyJwt (generateToken cfgW 0 7 (userPayload aliceW)) cfgW.secret 100 =
      .ok ⟨aliceW.id, aliceW.email, some aliceW.role, some 7⟩ ∧
    verifyJwt (generateRefreshToken cfgW 0 8 (userPayload aliceW))
        cfgW.refreshSecret 1000 =
      .ok ⟨aliceW.id, aliceW.email, some aliceW.role, some 8⟩ :=
  C8_token_round_trip cfgW (userPayload aliceW) 0 7 100 (by decide) 0 8 1000
    (by decide)

/-- C1: for a user with a valid session established by `login`, after a
successful `logout` with that session's access token the cache contains
neither `token:<jti>` for the token's jti nor `refreshToken:<userId>`,
and a protected request presenting the same access token is rejected 401
by the authentication middleware's jti-presence check. -/
theorem C1_logout_invalidates_session (cfg : Config) (now : Nat)
    (data : LoginInput) (s : AuthState) (u : User)
    (hfault : s.fault = none)
    (hfind : findByEmail s.db data.email = some u)
    (hpw : bcryptCompare data.password u.password = true)
    (hfid : findById s.db u.id = some u)
    (hexp : 0 < cfg.expiresIn) :
    ∃ s1 r s2, login cfg now data s = (s1, .ok r) ∧
      logout cfg now r.tokens.token s1 = (s2, .ok ()) ∧
      cacheExists s2.cache (.tokenKey r.tokens.token.jti) = false ∧
      cacheExists s2.cache (.refreshKey u.id) = false ∧
      authenticate cfg now s2.cache (.bearer r.tokens.token) =
        .reject 401 "Token invalidated or expired" := by
  have hver : verifyJwt (issuedTokens cfg now s.fresh u).token cfg.secret now =
      .ok ⟨u.id, u.email, some u.role, some s.fresh⟩ :=
    verifyJwt_generateToken cfg now s.fresh (userPayload u) now (by omega)
  have hgone : ∀ c : Cache, cacheExists
      (cacheDel (cacheDel c (.tokenKey (some s.fresh))) (.refreshKey u.id))
      (.tokenKey (some s.fresh)) = false := fun c => by
    rw [cacheExists_del_ne _ _ _ (by simp), cacheExists_del_self]
  have hauth : ∀ c : Cache, cacheExists c (.tokenKey (some s.fresh)) = false →
      authenticate cfg now c (.bearer (issuedTokens cfg now s.fresh u).token) =
        .reject 401 "Token invalidated or expired" := by
    intro c hc
    simp only [authenticate, hver, hc, Bool.false_eq_true, if_false]
  exact ⟨_, _, _, login_ok_eq cfg now data s u hfault hfind hpw hexp,
    logout_ok_eq cfg now _ _ ⟨u.id, u.email, some u.role, some s.fresh⟩ u
      hfault hver hfid,
    hgone _, cacheExists_del_self _ _, hauth _ (hgone _)⟩

theorem C1_witness :
    ∃ s1 r s2, login cfgW 0 loginW stateW = (s1, .ok r) ∧
      logout cfgW 0 r.tokens.token s1 = (s2, .ok ()) ∧
      cacheExists s2.cache (.tokenKey r.tokens.token.jti) = false ∧
      cacheExists s2.cache (.refreshKey aliceW.id) = false ∧
      authenticate cfgW 0 s2.cache (.bearer r.tokens.token) =
        .reject 401 "Token invalidated or expired" :=
  C1_logout_invalidates_session cfgW 0 loginW stateW aliceW rfl (by decide)
    (by decide) (by decide) (by decide)

/-- C2: after a successful login and a successful refresh, a second
refresh presenting the pre-rotation refresh token fails
`Unauthorized('Invalid refresh token')` (and leaves the state unchanged),
while a refresh presenting the newly issued refresh token succeeds. -/
theorem C2_refresh_rotation (cfg : Config) (now : Nat) (data : LoginInput)
    (s : AuthState) (u : User)
    (hfault : s.fault = none)
    (hfind : findByEmail s.db data.email = some u)
    (hpw : bcryptCompare data.password u.password = true)
    (hfid : findById s.db u.id = some u)
    (hexp : 0 < cfg.expiresIn) (hrexp : 0 < cfg.refreshExpiresIn) :
    ∃ s1 r s2 t1 s3 t2, login cfg now data s = (s1, .ok r) ∧
      refreshTokenOp cfg now r.tokens.refreshToken s1 = (s2, .ok t1) ∧
      refreshTokenOp cfg now r.tokens.refreshToken s2 =
        (s2, .error (.unauthorized "Invalid refresh token")) ∧
      refreshTokenOp cfg now t1.refreshToken s2 = (s3, .ok t2) := by
  have hver0 : verifyJwt (issuedTokens cfg now s.fresh u).refreshToken
      cfg.refreshSecret now = .ok ⟨u.id, u.email, some u.role, some (s.fresh + 1)⟩ :=
    verifyJwt_generateRefreshToken cfg now (s.fresh + 1) (userPayload u) now (by omega)
  have hstored1 : cacheGet
      (cacheSet
        (cacheSet s.cache (.refreshKey u.id)
          (.tokenVal (issuedTokens cfg now s.fresh u).refreshToken)
          (some cfg.refreshExpiresIn))
        (.tokenKey (some s.fresh)) (.userIdVal u.id) (some cfg.expiresIn))
      (.refreshKey u.id) =
      some ⟨.tokenVal (issuedTokens cfg now s.fresh u).refreshToken,
        some cfg.refreshExpiresIn⟩ := by
    rw [cacheGet_set_ne _ _ _ _ _ (by simp), cacheGet_set_same]
  have hne : (issuedTokens cfg now (s.fresh + 2) u).refreshToken ≠
      (issuedTokens cfg now s.fresh u).refreshToken := by
    intro h
    have hj := congrArg SignedToken.jti h
    simp only [issuedTokens, generateRefreshToken, Option.some.injEq] at hj
    omega
  exact ⟨_, _, _, _, _, _, login_ok_eq cfg now data s u hfault hfind hpw hexp,
    refreshTokenOp_ok_eq cfg now _ _
      ⟨u.id, u.email, some u.role, some (s.fresh + 1)⟩ u (some cfg.refreshExpiresIn)
      hfault hver0 hfid hstored1,
    refreshTokenOp_stale cfg now _ _
      ⟨u.id, u.email, some u.role, some (s.fresh + 1)⟩ u _ (some cfg.refreshExpiresIn)
      hfault hver0 hfid (cacheGet_set_same _ _ _ _) hne,
    refreshTokenOp_ok_eq cfg now _ _
      ⟨u.id, u.email, some u.role, some (s.fresh + 2 + 1)⟩ u (some cfg.refreshExpiresIn)
      hfault
      (verifyJwt_generateRefreshToken cfg now (s.fresh + 2 + 1) (userPayload u) now
        (by omega))
      hfid (cacheGet_set_same _ _ _ _)⟩

theorem C2_witness :
    ∃ s1 r s2 t1 s3 t2, login cfgW 0 loginW stateW = (s1, .ok r) ∧
      refreshTokenOp cfgW 0 r.tokens.refreshToken s1 = (s2, .ok t1) ∧
      refreshTokenOp cfgW 0 r.tokens.refreshToken s2 =
        (s2, .error (.unauthorized "Invalid refresh token")) ∧
      refreshTokenOp cfgW 0 t1.refreshToken s2 = (s3, .ok t2) :=
  C2_refresh_rotation cfgW 0 loginW stateW aliceW rfl (by decide) (by decide)
    (by decide) (by decide) (by decide)

/-- C9 (implicit): a successful `refreshToken` call never writes the new
access token's jti to the session cache — it only overwrites
`refreshToken:<userId>` — so a subsequent protected request presenting
the new access token is rejected 401 by the authentication middleware's
jti-presence check even though the token is signed and unexpired.  The
hypothesis `cacheJtisBelow` says every cached `token:<jti>` entry was
drawn from the fresh-id source, which holds of every reachable state. -/
theorem C9_refreshed_access_token_rejected (cfg : Config) (now : Nat)
    (rt : SignedToken) (s s' : AuthState) (tokens : TokenResponse)
    (hb : cacheJtisBelow s.cache s.fresh = true)
    (hexp : 0 < cfg.expiresIn)
    (hrun : refreshTokenOp cfg now rt s = (s', .ok tokens)) :
    cacheExists s'.cache (.tokenKey tokens.token.jti) = false ∧
    authenticate cfg now s'.cache (.bearer tokens.token) =
      .reject 401 "Token invalidated or expired" := by
  unfold refreshTokenOp at hrun
  cases hv : verifyJwt rt cfg.refreshSecret now with
  | error e => rw [hv] at hrun; simp at hrun
  | ok d =>
    rw [hv] at hrun
    dsimp only at hrun
    cases hf : repoFindById s d.id with
    | error e => rw [hf] at hrun; simp at hrun
    | ok uo =>
      rw [hf] at hrun
      cases uo with
      | none => simp at hrun
      | some user =>
        dsimp only at hrun
        cases hg : (cacheGet s.cache (.refreshKey user.id)).map (fun e => e.val) with
        | none => rw [hg] at hrun; simp at hrun
        | some v =>
          rw [hg] at hrun
          cases v with
          | userIdVal uid => simp at hrun
          | tokenVal stored =>
            dsimp only at hrun
            by_cases hsr : stored = rt
            · rw [if_pos hsr, generateTokens_eq] at hrun
              dsimp only at hrun
              rw [Prod.mk.injEq, Except.ok.injEq] at hrun
              obtain ⟨h1, h2⟩ := hrun
              subst h1
              subst h2
              have hnotin : cacheExists
                  (cacheSet s.cache (.refreshKey user.id)
                    (.tokenVal (issuedTokens cfg now s.fresh user).refreshToken)
                    (some cfg.refreshExpiresIn))
                  (.tokenKey (some s.fresh)) = false := by
                rw [cacheExists_set_ne _ _ _ _ _ (by simp)]
                exact cacheExists_of_jtisBelow s.cache s.fresh s.fresh hb (le_refl _)
              have hverTok : verifyJwt (issuedTokens cfg now s.fresh user).token
                  cfg.secret now =
                  .ok ⟨user.id, user.email, some user.role, some s.fresh⟩ :=
                verifyJwt_generateToken cfg now s.fresh (userPayload user) now (by omega)
              exact ⟨hnotin, by
                simp only [authenticate, hverTok, hnotin, Bool.false_eq_true, if_false]⟩
            · rw [if_neg hsr] at hrun; simp at hrun

theorem C9_witness :
    ∃ s2 t1, refreshTokenOp cfgW 0
        (generateRefreshToken cfgW 0 5 (userPayload aliceW))
        { db := [aliceW],
          cache := [(CacheKey.refreshKey aliceW.id,
            ⟨.tokenVal (generateRefreshToken cfgW 0 5 (userPayload aliceW)),
             some cfgW.refreshExpiresIn⟩)],
          fresh := 6, fault := none } = (s2, .ok t1) ∧
      cacheExists s2.cache (.tokenKey t1.token.jti) = false ∧
      authenticate cfgW 0 s2.cache (.bearer t1.token) =
        .reject 401 "Token invalidated or expired" := by
  refine ⟨_, _, rfl, ?_⟩
  exact C9_refreshed_access_token_rejected cfgW 0
    (generateRefreshToken cfgW 0 5 (userPayload aliceW))
    { db := [aliceW],
      cache := [(CacheKey.refreshKey aliceW.id,
        ⟨.tokenVal (generateRefreshToken cfgW 0 5 (userPayload aliceW)),
         some cfgW.refreshExpiresIn⟩)],
      fresh := 6, fault := none } _ _ (by decide) (by decide) rfl

/-- C5 counterexample: with an empty store, `register` succeeds (issuing
the access token with jti 1) but writes no `token:<jti>` entry, and the
register-issued access token is rejected 401 by the authentication
middleware — unlike a login-issued one (after the subsequent login, the
login access token's jti 3 is registered).  So register's token issuance
does not have the same session-cache effect as login's. -/
theorem C5_counterexample :
    (register cfgW 0 registerW emptyStateW).2 =
      .ok { user := toResponseDto (regUser registerW emptyStateW),
            tokens := issuedTokens cfgW 0 1 (regUser registerW emptyStateW) } ∧
    (issuedTokens cfgW 0 1 (regUser registerW emptyStateW)).token.jti = some 1 ∧
    cacheExists (register cfgW 0 registerW emptyStateW).1.cache
      (.tokenKey (some 1)) = false ∧
    authenticate cfgW 0 (register cfgW 0 registerW emptyStateW).1.cache
      (.bearer (issuedTokens cfgW 0 1 (regUser registerW emptyStateW)).token) =
      .reject 401 "Token invalidated or expired" ∧
    cacheExists
      (login cfgW 0 loginW (register cfgW 0 registerW emptyStateW).1).1.cache
      (.tokenKey (some 3)) = true :=
  ⟨rfl, rfl, rfl, rfl, rfl⟩

/-- C5 (amended): for a fresh email, `register` issues the same
token-pair shape as `login` and writes the `refreshToken:<userId>` entry
exactly as `login` does (via `generateTokens`), but it does not register
the access token's jti under `token:<jti>`, so a register-issued access
token is rejected 401 by the authentication middleware until a login
occurs. -/
theorem C5_register_issuance_amended (cfg : Config) (now : Nat)
    (data : RegisterInput) (s : AuthState)
    (hfault : s.fault = none)
    (hfree : findByEmail s.db data.email = none)
    (hb : cacheJtisBelow s.cache s.fresh = true)
    (hexp : 0 < cfg.expiresIn) :
    ∃ s1 r, register cfg now data s = (s1, .ok r) ∧
      r.tokens = issuedTokens cfg now (s.fresh + 1) (regUser data s) ∧
      cacheGet s1.cache (.refreshKey (regUser data s).id) =
        some ⟨.tokenVal r.tokens.refreshToken, some cfg.refreshExpiresIn⟩ ∧
      cacheExists s1.cache (.tokenKey r.tokens.token.jti) = false ∧
      authenticate cfg now s1.cache (.bearer r.tokens.token) =
        .reject 401 "Token invalidated or expired" := by
  have hnotin : cacheExists
      (cacheSet s.cache (.refreshKey (regUser data s).id)
        (.tokenVal (issuedTokens cfg now (s.fresh + 1) (regUser data s)).refreshToken)
        (some cfg.refreshExpiresIn))
      (.tokenKey (some (s.fresh + 1))) = false := by
    rw [cacheExists_set_ne _ _ _ _ _ (by simp)]
    exact cacheExists_of_jtisBelow s.cache s.fresh (s.fresh + 1) hb (by omega)
  have hverTok : verifyJwt (issuedTokens cfg now (s.fresh + 1) (regUser data s)).token
      cfg.secret now =
      .ok ⟨(regUser data s).id, (regUser data s).email, some (regUser data s).role,
        some (s.fresh + 1)⟩ :=
    verifyJwt_generateToken cfg now (s.fresh + 1) (userPayload (regUser data s)) now
      (by omega)
  exact ⟨_, _, register_ok_eq cfg now data s hfault hfree, rfl,
    cacheGet_set_same _ _ _ _, hnotin, by
      simp only [authenticate, hverTok, hnotin, Bool.false_eq_true, if_false]⟩

theorem C5_witness :
    ∃ s1 r, register cfgW 0 registerW emptyStateW = (s1, .ok r) ∧
      r.tokens = issuedTokens cfgW 0 (emptyStateW.fresh + 1)
        (regUser registerW emptyStateW) ∧
      cacheGet s1.cache (.refreshKey (regUser registerW emptyStateW).id) =
        some ⟨.tokenVal r.tokens.refreshToken, some cfgW.refreshExpiresIn⟩ ∧
      cacheExists s1.cache (.tokenKey r.tokens.token.jti) = false ∧
      authenticate cfgW 0 s1.cache (.bearer r.tokens.token) =
        .reject 401 "Token invalidated or expired" :=
  C5_register_issuance_amended cfgW 0 registerW emptyStateW rfl (by decide)
    (by decide) (by decide)

/-- C6 counterexample: with an injected credential-store fault,
`refreshToken` does not rethrow the store error unchanged — its catch
block substitutes `UnauthorizedError('Invalid refresh token')`, a
different error value. -/
theorem C6_counterexample :
    refreshTokenOp cfgW 0 (generateRefreshToken cfgW 0 0 (userPayload aliceW))
        faultStateW =
      (faultStateW, .error (.unauthorized "Invalid refresh token")) ∧
    AppError.unauthorized "Invalid refresh token" ≠ AppError.storeError "db down" :=
  ⟨rfl, by decide⟩

/-- C6 (amended): `login`, `register` and `logout` rethrow an unexpected
lower-level store error unchanged after logging it; `refreshToken`
instead catches every error — store errors included — and surfaces
`UnauthorizedError('Invalid refresh token')`.  (`logout` is taken past
its token verification, the step before any store access.) -/
theorem C6_error_propagation_amended (cfg : Config) (now : Nat)
    (ldata : LoginInput) (rdata : RegisterInput) (tok rt : SignedToken)
    (d : DecodedPayload) (s : AuthState) (m : String)
    (hm : s.fault = some m)
    (hver : verifyJwt tok cfg.secret now = .ok d) :
    login cfg now ldata s = (s, .error (.storeError m)) ∧
    register cfg now rdata s = (s, .error (.storeError m)) ∧
    logout cfg now tok s = (s, .error (.storeError m)) ∧
    refreshTokenOp cfg now rt s =
      (s, .error (.unauthorized "Invalid refresh token")) := by
  have h1 : repoFindByEmail s ldata.email = .error (.storeError m) := by
    rw [repoFindByEmail, hm]
  have h2 : repoFindByEmail s rdata.email = .error (.storeError m) := by
    rw [repoFindByEmail, hm]
  have h3 : repoFindById s d.id = .error (.storeError m) := by
    rw [repoFindById, hm]
  refine ⟨?_, ?_, ?_, ?_⟩
  · simp only [login, h1]
  · simp only [register, h2]
  · simp only [logout, hver, h3]
  · cases hv : verifyJwt rt cfg.refreshSecret now with
    | error e => simp only [refreshTokenOp, hv]
    | ok d2 =>
      have h4 : repoFindById s d2.id = .error (.storeError m) := by
        rw [repoFindById, hm]
      simp only [refreshTokenOp, hv, h4]

theorem C6_witness :
    login cfgW 0 loginW faultStateW = (faultStateW, .error (.storeError "db down")) ∧
    register cfgW 0 registerW faultStateW =
      (faultStateW, .error (.storeError "db down")) ∧
    logout cfgW 0 (generateToken cfgW 0 0 (userPayload aliceW)) faultStateW =
      (faultStateW, .error (.storeError "db down")) ∧
    refreshTokenOp cfgW 0 (generateRefreshToken cfgW 0 1 (userPayload aliceW))
        faultStateW =
      (faultStateW, .error (.unauthorized "Invalid refresh token")) :=
  C6_error_propagation_amended cfgW 0 loginW registerW
    (generateToken cfgW 0 0 (userPayload aliceW))
    (generateRefreshToken cfgW 0 1 (userPayload aliceW))
    ⟨aliceW.id, aliceW.email, some aliceW.role, some 0⟩ faultStateW "db down"
    rfl rfl

/-- C10 (implicit): the `authorizeOwner` admin bypass fires only for the
exact lowercase role string `admin`; a requester whose role is the
capitalized `Admin` (the convention the role gates such as
`authorize('Admin')` check and registration assigns, registration always
assigning `User`) who does not own the resource is rejected 403 rather
than bypassing the ownership check. -/
theorem C10_authorizeOwner_admin_case (u : CtxUser) (rid : String)
    (hrole : u.role = some "Admin") (hown : rid ≠ u.id) :
    authorizeOwner rid (some u) =
      .reject 403 "You can only access your own resources" ∧
    (∀ v : CtxUser, authorizeOwner rid (some v) = .next →
      v.role = some "admin" ∨ rid = v.id) ∧
    (∀ (cfg : Config) (now : Nat) (data : RegisterInput) (s : AuthState),
      data.role = none → s.fault = none → findByEmail s.db data.email = none →
      ((register cfg now data s).2.map fun r => r.user.role) = .ok "User") := by
  refine ⟨?_, ?_, ?_⟩
  · simp only [authorizeOwner, hrole]
    rw [if_neg (by decide : ¬((some "Admin" : Option String) = some "admin")),
      if_pos hown]
  · intro v h
    by_cases hv : v.role = some "admin"
    · exact Or.inl hv
    · right
      simp only [authorizeOwner] at h
      rw [if_neg hv] at h
      by_cases hr : rid ≠ v.id
      · rw [if_pos hr] at h
        cases h
      · exact not_not.mp hr
  · intro cfg now data s hrole0 hfa hfr
    rw [register_ok_eq cfg now data s hfa hfr]
    simp [Except.map, toResponseDto, regUser, hrole0]

theorem C10_witness :
    authorizeOwner "u1" (some ⟨"2", "bob@example.com", some "Admin"⟩) =
      .reject 403 "You can only access your own resources" ∧
    (∀ v : CtxUser, authorizeOwner "u1" (some v) = .next →
      v.role = some "admin" ∨ "u1" = v.id) ∧
    (∀ (cfg : Config) (now : Nat) (data : RegisterInput) (s : AuthState),
      data.role = none → s.fault = none → findByEmail s.db data.email = none →
      ((register cfg now data s).2.map fun r => r.user.role) = .ok "User") :=
  C10_authorizeOwner_admin_case ⟨"2", "bob@example.com", some "Admin"⟩ "u1"
    rfl (by decide)

end ExpressPrisma
